import Mathlib

/-!
Shallow embedding of `src/media.py`, a Telegram media-download bot.

The pure parts (platform detection, link selection, media-kind choice,
path construction) are translated directly from the source.  The effectful
parts (`button_callback`, `download_via_service`, `download_via_ytdlp`)
are embedded as functions over an explicit environment describing the
outcomes of the external collaborators (HTTP fetches, the yt-dlp library,
the Telegram delivery calls) together with an explicit filesystem value,
mirroring the control flow of the Python code line by line.
-/

namespace Media

/-! ### Strings: case folding and substring search

Python's `needle in hay` on strings is substring containment; the source
uses `.lower()` (and `re.IGNORECASE` with literal patterns), which for the
ASCII-only tokens involved is exactly `Char.toLower`-folding both sides. -/

/-- `chStarts n h`: the char list `n` is an initial segment of `h`. -/
def chStarts : List Char → List Char → Bool
  | [], _ => true
  | _ :: _, [] => false
  | c :: cs, d :: ds => c == d && chStarts cs ds

/-- `chHas n h`: the char list `n` occurs contiguously somewhere in `h`. -/
def chHas (needle : List Char) : List Char → Bool
  | [] => chStarts needle []
  | c :: t => chStarts needle (c :: t) || chHas needle t

/-- Case-sensitive substring test: Python's `needle in hay`. -/
def containsStr (hay needle : String) : Bool :=
  chHas needle.data hay.data

/-- ASCII lowercase of a char list. -/
def lowerChars (l : List Char) : List Char := l.map Char.toLower

/-- Case-insensitive substring test: Python's
`needle in hay.lower()` for a lowercase `needle`, or an `re.IGNORECASE`
search for a literal pattern. -/
def containsCI (hay needle : String) : Bool :=
  chHas (lowerChars needle.data) (lowerChars hay.data)

/-- Python's `s[-n:]`: the last `n` characters of `s` (all of `s` when it
is shorter than `n`). -/
def lastN (s : String) (n : Nat) : String :=
  String.mk (s.data.drop (s.data.length - n))

/-! ### Constants and the platform table (source lines 27-53) -/

/-- `MAX_FILE_SIZE = 50 * 1024 * 1024` — Telegram's file size limit. -/
def MAX_FILE_SIZE : Nat := 50 * 1024 * 1024

/-- The closed set of platform identifiers (the keys of `PLATFORMS`). -/
inductive Platform
  | youtube
  | tiktok
  | facebook
  | instagram
deriving DecidableEq, Repr

/-- One entry of the `PLATFORMS` dict: display name, the literal
alternatives of the match regex, and the downloader URL template. -/
structure PlatformData where
  name : String
  patterns : List String
  downloader : String
deriving DecidableEq, Repr

def youtubeData : PlatformData :=
  ⟨"YouTube", ["youtube.com", "youtu.be"], "https://ssyoutube.com/watch?v=\x7b\x7d"⟩

def tiktokData : PlatformData :=
  ⟨"TikTok", ["tiktok.com"], "https://snaptik.app/\x7b\x7d"⟩

def facebookData : PlatformData :=
  ⟨"Facebook", ["facebook.com"], "https://snapsave.app/\x7b\x7d"⟩

def instagramData : PlatformData :=
  ⟨"Instagram", ["instagram.com"], "https://instafinsta.com/\x7b\x7d"⟩

/-- The `PLATFORMS` dict; Python dicts preserve insertion order, so the
table order is youtube, tiktok, facebook, instagram. -/
def PLATFORMS : List (Platform × PlatformData) :=
  [(Platform.youtube, youtubeData),
   (Platform.tiktok, tiktokData),
   (Platform.facebook, facebookData),
   (Platform.instagram, instagramData)]

/-- `re.search(data["regex"], url, re.IGNORECASE)` for this table's
regexes: each is a literal alternation, so it holds iff one of the
alternatives occurs in `url` case-insensitively. -/
def platformMatches (d : PlatformData) (url : String) : Bool :=
  d.patterns.any (fun pat => containsCI url pat)

/-- `detect_platform` (source lines 59-64): first entry of the table whose
regex matches the URL, else `none`. -/
def detect_platform (url : String) : Option Platform :=
  (PLATFORMS.find? (fun pd => platformMatches pd.2 url)).map (fun pd => pd.1)

/-! Spec-side rendering of the detection rule, for the refinement claim:
"the first platform in the fixed table order {youtube, tiktok, facebook,
instagram} whose match pattern occurs anywhere in the URL
case-insensitively, and none when no pattern matches". -/

/-- Pattern data of a single platform. -/
def dataOf : Platform → PlatformData
  | Platform.youtube => youtubeData
  | Platform.tiktok => tiktokData
  | Platform.facebook => facebookData
  | Platform.instagram => instagramData

/-- A given platform's pattern occurs anywhere in the URL,
case-insensitively. -/
def matchesPlatform (p : Platform) (url : String) : Bool :=
  platformMatches (dataOf p) url

/-- Spec-side detection: explicit first-match chain in the fixed table
order, `none` when no pattern matches. -/
def detect_spec (url : String) : Option Platform :=
  if matchesPlatform Platform.youtube url then some Platform.youtube
  else if matchesPlatform Platform.tiktok url then some Platform.tiktok
  else if matchesPlatform Platform.facebook url then some Platform.facebook
  else if matchesPlatform Platform.instagram url then some Platform.instagram
  else none

/-! ### Filesystem model

A flat map from paths to file sizes, as an association list.  Opening a
path with mode "wb" creates/truncates it (`fsSet`), `Path.unlink` removes
it (`fsDel`), `Path.stat().st_size` reads its size (`fsSize`). -/

/-- Filesystem: path to size-in-bytes. -/
abbrev FS := List (String × Nat)

/-- Create or overwrite the file at `p` with `n` bytes. -/
def fsSet (fs : FS) (p : String) (n : Nat) : FS :=
  (p, n) :: fs.filter (fun e => !(e.1 == p))

/-- Delete the file at `p` (no-op when absent). -/
def fsDel (fs : FS) (p : String) : FS :=
  fs.filter (fun e => !(e.1 == p))

/-- Does a file exist at `p`? -/
def fsHas (fs : FS) (p : String) : Bool :=
  (fs.find? (fun e => e.1 == p)).isSome

/-- Size of the file at `p` (0 when absent). -/
def fsSize (fs : FS) (p : String) : Nat :=
  ((fs.find? (fun e => e.1 == p)).map (fun e => e.2)).getD 0

/-! ### Request data and exception model -/

/-- The user's format choice, which doubles as the produced file's kind
(the source represents both as the strings "audio" / "video"). -/
inductive FormatChoice
  | audio
  | video
deriving DecidableEq, Repr

/-- The string value of a format choice. -/
def formatStr : FormatChoice → String
  | FormatChoice.audio => "audio"
  | FormatChoice.video => "video"

/-- Exceptions that can escape the embedded functions:
`downloadError` is the source's `DownloadError` (source lines 55-57);
`other` is any exception that is not a `DownloadError` (for example a
`requests` error raised inside the streamed write loop, after the
response headers were already received). -/
inductive Exc
  | downloadError
  | other
deriving DecidableEq, Repr

/-! ### Service extractor (`download_via_service`, source lines 211-278) -/

/-- An `<a href=...>` element of the fetched page: destination and text. -/
structure Link where
  href : String
  text : String
deriving DecidableEq, Repr

/-- Outcome of the first `requests.get` + `raise_for_status` on the
service page: a `requests.RequestException` (network error, timeout,
non-2xx), or the page's hyperlinks. -/
inductive PageFetchResult
  | fetchError
  | ok (links : List Link)

/-- A successful direct-media response: the declared Content-Type header
(if any), the sizes of the chunks `iter_content` successfully yields, and
whether the stream then raises a `requests` error part-way (after those
chunks were already written). -/
structure DirectResponse where
  contentType : Option String
  chunks : List Nat
  streamErr : Bool

/-- Outcome of the direct-media `requests.get` + `raise_for_status`. -/
inductive DirectFetchResult
  | reqError
  | ok (resp : DirectResponse)

/-- Environment of one `download_via_service` call: what the two HTTP
fetches do. -/
structure ServiceEnv where
  pageFetch : PageFetchResult
  directFetch : String → DirectFetchResult

/-- A URL carries a scheme (`requests` raises `MissingSchema`, a
`RequestException`, when asked to GET a URL without one, e.g. a relative
link taken verbatim from the page). -/
def hasScheme (u : String) : Bool :=
  containsStr u "://"

/-- `requests.get` on the resolved download URL: rejects scheme-less URLs
itself, otherwise behaves as the environment says. -/
def requests_get (env : ServiceEnv) (u : String) : DirectFetchResult :=
  if hasScheme u then env.directFetch u else DirectFetchResult.reqError

/-- The per-link test of the link-scanning loops (source lines 236-247):
for youtube, `"download" in href.lower() and format_choice in
link.text.lower()`; for tiktok/facebook/instagram, `"download" in
href.lower() or "video" in href.lower()`. -/
def linkMatches (platform : Platform) (format_choice : FormatChoice) (l : Link) : Bool :=
  match platform with
  | Platform.youtube =>
      containsCI l.href "download" && containsCI l.text (formatStr format_choice)
  | _ => containsCI l.href "download" || containsCI l.href "video"

/-- The link-scanning loop itself: it assigns `download_url` and `break`s
at the first matching link. -/
def find_download_url (platform : Platform) (format_choice : FormatChoice) :
    List Link → Option String
  | [] => none
  | l :: ls =>
      if linkMatches platform format_choice l then some l.href
      else find_download_url platform format_choice ls

/-- File-kind and extension selection (source lines 261-268):
`if "audio" in content_type or format_choice == "audio"` (with
`content_type = response.headers.get("Content-Type", "")`) then
`.mp3`/audio else `.mp4`/video. -/
def service_media_kind (contentType : Option String) (format_choice : FormatChoice) :
    FormatChoice × String :=
  if containsStr (contentType.getD "") "audio" || format_choice == FormatChoice.audio
  then (FormatChoice.audio, ".mp3")
  else (FormatChoice.video, ".mp4")

/-- `tempfile.gettempdir()` plus the path separator. -/
def tmpDir : String := "/tmp/"

/-- The service path's output file (source line 272):
`temp_dir / f"download_{context.bot.token[-6:]}{ext}"` — note the name
depends only on the bot token's last six characters and the extension,
not on the request. -/
def service_file_path (botToken : String) (ext : String) : String :=
  tmpDir ++ "download_" ++ lastN botToken 6 ++ ext

/-- Result of one `download_via_service` call: the returned pair or the
escaping exception, the filesystem afterwards, and (for tracing) the URL
passed to the direct-media `requests.get`, when that call was reached. -/
structure ServiceResult where
  result : Except Exc (String × FormatChoice)
  fs : FS
  directUrl : Option String

/-- `download_via_service` (source lines 211-278).  The page fetch and the
direct fetch raise `DownloadError` when they fail (both are wrapped in
try/except); a missing link raises `DownloadError`; a `requests` error
inside the streamed write loop is NOT wrapped and escapes as a
non-`DownloadError` exception, after the already-yielded chunks were
written to the (fixed-name) output file. -/
def download_via_service (env : ServiceEnv) (platform : Platform)
    (format_choice : FormatChoice) (botToken : String) (fs : FS) : ServiceResult :=
  match env.pageFetch with
  | PageFetchResult.fetchError =>
      ⟨Except.error Exc.downloadError, fs, none⟩
  | PageFetchResult.ok links =>
    match find_download_url platform format_choice links with
    | none => ⟨Except.error Exc.downloadError, fs, none⟩
    | some download_url =>
      match requests_get env download_url with
      | DirectFetchResult.reqError =>
          ⟨Except.error Exc.downloadError, fs, some download_url⟩
      | DirectFetchResult.ok resp =>
        let kind := service_media_kind resp.contentType format_choice
        let file_path := service_file_path botToken kind.2
        let fs1 := fsSet fs file_path (resp.chunks.foldl Nat.add 0)
        if resp.streamErr then ⟨Except.error Exc.other, fs1, some download_url⟩
        else ⟨Except.ok (file_path, kind.1), fs1, some download_url⟩

/-! ### Fallback extractor (`download_via_ytdlp`, source lines 280-324) -/

/-- Outcome of `ydl.extract_info(url, download=True)`: any exception, or
success with the path `ydl.prepare_filename(info)` reports and the size
of the file the library wrote. -/
inductive YtdlpOutcome
  | extractError
  | ok (reportedPath : String) (size : Nat)

/-- `Path.with_suffix`: strip a trailing `.ext` from the last path
component, if any. -/
def stripExt (p : String) : String :=
  let rev := p.data.reverse
  let pre := rev.takeWhile (fun c => !(c == '.') && !(c == '/'))
  match rev.drop pre.length with
  | '.' :: rest => String.mk rest.reverse
  | _ => p

/-- `Path.with_suffix(suf)`. -/
def withSuffix (p suf : String) : String :=
  stripExt p ++ suf

/-- The `outtmpl` option (source lines 290-292):
`tempfile.gettempdir() / f"ytdlp_{context.bot.token[-6:]}%(ext)s"` —
again keyed on the bot token, not on the request. -/
def ytdlp_outtmpl (botToken : String) : String :=
  tmpDir ++ "ytdlp_" ++ lastN botToken 6 ++ "%(ext)s"

/-- `download_via_ytdlp` (source lines 280-324): delegates to the library
(whose behavior, given the output template, the environment supplies);
any exception is wrapped in `DownloadError("yt-dlp failed")`; on success
the returned path is `prepare_filename`'s path with the suffix forced to
`.mp3` for audio.  The library (with its audio postprocessor) writes the
resulting file. -/
def download_via_ytdlp (ytdlp : String → YtdlpOutcome) (format_choice : FormatChoice)
    (botToken : String) (fs : FS) : Except Exc (String × FormatChoice) × FS :=
  match ytdlp (ytdlp_outtmpl botToken) with
  | YtdlpOutcome.extractError => (Except.error Exc.downloadError, fs)
  | YtdlpOutcome.ok reported size =>
    let file_path :=
      if format_choice == FormatChoice.audio then withSuffix reported ".mp3" else reported
    (Except.ok (file_path, format_choice), fsSet fs file_path size)

/-! ### Orchestrator (`button_callback`, source lines 128-209)

We embed the part after the format choice is known (lines 157-209): the
two-stage download, the size check, delivery, and cleanup.  The cosmetic
edits before line 157 (deleting the button message, the "Processing…"
status edit) are not terminal messages and are not tracked;
`userMessages` records the terminal user-visible messages of the request. -/

/-- The terminal user-visible messages `button_callback` can send. -/
inductive Msg
  | tooLargeMsg (sizeBytes : Nat)
  | downloadFailedMsg
  | sendFailedMsg
  | doneMsg
deriving DecidableEq, Repr

/-- Terminal outcome of one request.  `crashed` means an exception
escaped `button_callback` uncaught (the handler just stops; the bot
framework logs it). -/
inductive Outcome
  | delivered
  | downloadFailed
  | tooLarge (sizeBytes : Nat)
  | deliveryFailed
  | crashed
deriving DecidableEq, Repr

/-- Whole-request environment: the two HTTP fetches, the extraction
library, and whether the delivery call (`send_audio`/`send_video` plus
the final status edit) raises. -/
structure Env where
  service : ServiceEnv
  ytdlp : String → YtdlpOutcome
  sendFails : Bool

/-- Trace of one request. -/
structure RunResult where
  outcome : Outcome
  serviceCalls : Nat
  ytdlpCalls : Nat
  deliveryCalls : Nat
  userMessages : List Msg
  fs : FS

/-- Source lines 174-209: the size check, the delivery attempt, and the
unconditional `finally`-cleanup around delivery.  `sc`/`yc` record how
many extractor calls happened on the way here. -/
def size_check_and_send (env : Env) (file_path : String) (_file_type : FormatChoice)
    (fs : FS) (sc yc : Nat) : RunResult :=
  let file_size := fsSize fs file_path
  if file_size > MAX_FILE_SIZE then
    ⟨Outcome.tooLarge file_size, sc, yc, 0, [Msg.tooLargeMsg file_size], fsDel fs file_path⟩
  else if env.sendFails then
    ⟨Outcome.deliveryFailed, sc, yc, 1, [Msg.sendFailedMsg], fsDel fs file_path⟩
  else
    ⟨Outcome.delivered, sc, yc, 1, [Msg.doneMsg], fsDel fs file_path⟩

/-- `button_callback`, lines 157-209: try `download_via_service`; on
`DownloadError` (and only then) try `download_via_ytdlp`, whose failure
sends the download-failure message and returns; any non-`DownloadError`
exception from the service path escapes the handler uncaught.  A
successful download proceeds to the size check and delivery. -/
def button_callback (env : Env) (platform : Platform) (format_choice : FormatChoice)
    (botToken : String) (fs0 : FS) : RunResult :=
  let sres := download_via_service env.service platform format_choice botToken fs0
  match sres.result with
  | Except.ok pt => size_check_and_send env pt.1 pt.2 sres.fs 1 0
  | Except.error Exc.downloadError =>
    let yres := download_via_ytdlp env.ytdlp format_choice botToken sres.fs
    match yres.1 with
    | Except.ok pt => size_check_and_send env pt.1 pt.2 yres.2 1 1
    | Except.error _ =>
        ⟨Outcome.downloadFailed, 1, 1, 0, [Msg.downloadFailedMsg], yres.2⟩
  | Except.error Exc.other => ⟨Outcome.crashed, 1, 0, 0, [], sres.fs⟩

/-! ### Spec-side renderings used by refinement/correction claims -/

/-- Link selection as the spec describes it: candidates are links whose
destination contains one of the media tokens "download", "video", "mp4";
among candidates one also containing a quality token "hd"/"high" is
preferred; among equally qualified candidates the LAST one scanned wins
(the scan allegedly keeps overwriting the selection). -/
def claim_select_link (links : List Link) : Option String :=
  let cands := links.filter
    (fun l => containsCI l.href "download" || containsCI l.href "video" ||
      containsCI l.href "mp4")
  let quality := cands.filter
    (fun l => containsCI l.href "hd" || containsCI l.href "high")
  match quality.getLast? with
  | some l => some l.href
  | none => cands.getLast?.map (fun l => l.href)

/-- Media-kind inference as the spec describes it: from the declared
Content-Type when the header is present, from the requested format only
when it is absent. -/
def claim_media_kind (contentType : Option String) (format_choice : FormatChoice) :
    FormatChoice :=
  match contentType with
  | some ct => if containsStr ct "audio" then FormatChoice.audio else FormatChoice.video
  | none => format_choice

/-! ### Concrete environments used to evaluate the code at specific
inputs -/

/-- A service page with two qualifying links, only the second of which
carries a quality token. -/
def c4Links : List Link :=
  [⟨"/x/video_a", ""⟩, ⟨"/y/video_hd", ""⟩]

/-- A request whose direct-media stream raises a requests error after
8196 bytes were already written. -/
def c1Env : Env :=
  ⟨⟨PageFetchResult.ok [⟨"https://sv.example/download/a.mp4", "video"⟩],
    fun _ => DirectFetchResult.ok ⟨some "video/mp4", [8192, 4], true⟩⟩,
   fun _ => YtdlpOutcome.extractError, false⟩

/-- Another request whose direct-media stream raises mid-write. -/
def c7Env : Env :=
  ⟨⟨PageFetchResult.ok [⟨"https://host/v/video123", ""⟩],
    fun _ => DirectFetchResult.ok ⟨some "video/mp4", [1], true⟩⟩,
   fun _ => YtdlpOutcome.extractError, false⟩

/-- A request whose direct-media stream raises immediately, for the C10
witness. -/
def c10Env : Env :=
  ⟨⟨PageFetchResult.ok [⟨"http://s/downloadx", ""⟩],
    fun _ => DirectFetchResult.ok ⟨none, [100], true⟩⟩,
   fun _ => YtdlpOutcome.extractError, false⟩

/-- First of two distinct concurrent requests sharing one bot token. -/
def c6EnvA : ServiceEnv :=
  ⟨PageFetchResult.ok [⟨"https://a.example/download/1", ""⟩],
   fun _ => DirectFetchResult.ok ⟨none, [10], false⟩⟩

/-- Second of two distinct concurrent requests sharing one bot token. -/
def c6EnvB : ServiceEnv :=
  ⟨PageFetchResult.ok [⟨"https://b.example/download/v2", "Download video"⟩],
   fun _ => DirectFetchResult.ok ⟨none, [20], false⟩⟩

/-- A service page whose only qualifying link is relative. -/
def c9Env : ServiceEnv :=
  ⟨PageFetchResult.ok [⟨"/getvid/video.mp4", ""⟩],
   fun _ => DirectFetchResult.ok ⟨some "video/mp4", [10], false⟩⟩

/-- Another service page whose only qualifying link is relative, for the
C9 witness. -/
def c9EnvW : ServiceEnv :=
  ⟨PageFetchResult.ok [⟨"/dl/video1", ""⟩],
   fun _ => DirectFetchResult.ok ⟨none, [], false⟩⟩

/-- An environment in which no extractor succeeds, for the C5 witness. -/
def c5EnvW : Env :=
  ⟨⟨PageFetchResult.fetchError, fun _ => DirectFetchResult.reqError⟩,
   fun _ => YtdlpOutcome.extractError, false⟩

/-- A filesystem holding one file just over the 50 MiB ceiling. -/
def c5fsW : FS := [("/tmp/big.mp4", 52428801)]

end Media

/-- A sanity example from the spec's test scenarios. -/
theorem Media.detect_youtu_be :
    Media.detect_platform "https://youtu.be/abc123" = some Media.Platform.youtube := by
  decide

/-- A sanity example: a URL matching no pattern yields none. -/
theorem Media.detect_no_match :
    Media.detect_platform "https://example.com/video" = none := by
  decide

/-- C3: `detect_platform` returns, for every URL, the first platform in
the fixed table order {youtube, tiktok, facebook, instagram} whose match
pattern occurs anywhere in the URL case-insensitively, and `none` when no
pattern matches (so ties between several matching platforms are resolved
deterministically by table order). -/
theorem Media.c3_detect_first_match (url : String) :
    Media.detect_platform url = Media.detect_spec url := by
  unfold Media.detect_platform Media.detect_spec Media.PLATFORMS
  simp only [List.find?, Media.matchesPlatform, Media.dataOf]
  by_cases h1 : Media.platformMatches Media.youtubeData url = true <;>
    by_cases h2 : Media.platformMatches Media.tiktokData url = true <;>
    by_cases h3 : Media.platformMatches Media.facebookData url = true <;>
    by_cases h4 : Media.platformMatches Media.instagramData url = true <;>
    simp_all

namespace Media

/-! ### Helper lemmas -/

/-- Deleting a path removes it from the filesystem. -/
theorem fsHas_fsDel (fs : FS) (p : String) : fsHas (fsDel fs p) p = false := by
  induction fs with
  | nil => rfl
  | cons e t ih =>
    by_cases h : (e.1 == p) = true
    · simpa [fsDel, List.filter_cons, h] using ih
    · have hb : (e.1 == p) = false := by simpa using h
      simp [fsDel, fsHas, List.filter_cons, List.find?, hb]

/-- The size-check-and-delivery stage passes the extractor-call counters
through unchanged and always deletes the artifact. -/
theorem size_check_and_send_counts (env : Env) (p : String) (t : FormatChoice)
    (fs : FS) (sc yc : Nat) :
    (size_check_and_send env p t fs sc yc).serviceCalls = sc ∧
    (size_check_and_send env p t fs sc yc).ytdlpCalls = yc ∧
    (size_check_and_send env p t fs sc yc).fs = fsDel fs p := by
  unfold size_check_and_send
  by_cases h1 : fsSize fs p > MAX_FILE_SIZE <;>
    by_cases h2 : env.sendFails = true <;>
    simp [h1, h2]

end Media

namespace Media

/-- C2: for every request, the service extractor is attempted exactly
once, and the fallback extractor is invoked exactly once if and only if
the service attempt fails with the source's `DownloadError` (the
`ServiceError` of the design); in particular the fallback is never
invoked when the service attempt succeeds, and no stage is retried. -/
theorem c2_service_once_fallback_iff (env : Env) (platform : Platform)
    (format_choice : FormatChoice) (botToken : String) (fs0 : FS) :
    (button_callback env platform format_choice botToken fs0).serviceCalls = 1 ∧
    ((button_callback env platform format_choice botToken fs0).ytdlpCalls = 1 ↔
      (download_via_service env.service platform format_choice botToken fs0).result
        = Except.error Exc.downloadError) ∧
    (button_callback env platform format_choice botToken fs0).ytdlpCalls ≤ 1 := by
  simp only [button_callback]
  rcases hres : (download_via_service env.service platform format_choice botToken fs0).result
    with e | pt
  · cases e with
    | downloadError =>
      rcases hy : (download_via_ytdlp env.ytdlp format_choice botToken
          (download_via_service env.service platform format_choice botToken fs0).fs).1
        with e2 | pt2
      · simp [hy]
      · have hc := size_check_and_send_counts env pt2.1 pt2.2
          (download_via_ytdlp env.ytdlp format_choice botToken
            (download_via_service env.service platform format_choice botToken fs0).fs).2 1 1
        simp [hy, hc.1, hc.2.1]
    | other => simp
  · have hc := size_check_and_send_counts env pt.1 pt.2
      (download_via_service env.service platform format_choice botToken fs0).fs 1 0
    simp [hc.1, hc.2.1]

end Media

namespace Media

/-- C5: the ceiling is exactly 52428800 bytes; when the measured artifact
size strictly exceeds it, the request terminates with a too-large failure
whose user-visible message carries the measured size, the artifact file
is deleted and no delivery call is made; otherwise exactly one delivery
call is made (and the artifact is cleaned up afterwards either way). -/
theorem c5_size_gate (env : Env) (p : String) (t : FormatChoice) (fs : FS) (sc yc : Nat) :
    MAX_FILE_SIZE = 52428800 ∧
    (MAX_FILE_SIZE < fsSize fs p →
      (size_check_and_send env p t fs sc yc).outcome = Outcome.tooLarge (fsSize fs p) ∧
      (size_check_and_send env p t fs sc yc).userMessages = [Msg.tooLargeMsg (fsSize fs p)] ∧
      fsHas (size_check_and_send env p t fs sc yc).fs p = false ∧
      (size_check_and_send env p t fs sc yc).deliveryCalls = 0) ∧
    (fsSize fs p ≤ MAX_FILE_SIZE →
      (size_check_and_send env p t fs sc yc).deliveryCalls = 1 ∧
      fsHas (size_check_and_send env p t fs sc yc).fs p = false) := by
  unfold size_check_and_send
  refine ⟨by norm_num [MAX_FILE_SIZE], ?_, ?_⟩
  · intro h
    simp [h, fsHas_fsDel]
  · intro h
    have h2 : ¬ fsSize fs p > MAX_FILE_SIZE := by omega
    by_cases hs : env.sendFails = true <;> simp [h2, hs, fsHas_fsDel]

/-- Witness for C5 at a concrete oversized file. -/
theorem c5_size_gate_witness :
    MAX_FILE_SIZE < fsSize c5fsW "/tmp/big.mp4" ∧
    ((size_check_and_send c5EnvW "/tmp/big.mp4" FormatChoice.video c5fsW 1 0).outcome
        = Outcome.tooLarge (fsSize c5fsW "/tmp/big.mp4") ∧
      (size_check_and_send c5EnvW "/tmp/big.mp4" FormatChoice.video c5fsW 1 0).userMessages
        = [Msg.tooLargeMsg (fsSize c5fsW "/tmp/big.mp4")] ∧
      fsHas (size_check_and_send c5EnvW "/tmp/big.mp4" FormatChoice.video c5fsW 1 0).fs
        "/tmp/big.mp4" = false ∧
      (size_check_and_send c5EnvW "/tmp/big.mp4" FormatChoice.video c5fsW 1 0).deliveryCalls
        = 0) :=
  ⟨by decide, (c5_size_gate c5EnvW "/tmp/big.mp4" FormatChoice.video c5fsW 1 0).2.1 (by decide)⟩

/-- C10: whenever `download_via_service` raises an exception that is not
a `DownloadError` (e.g. a network error inside the streamed write loop),
the handler crashes: the fallback extractor is not invoked, no
user-visible message is sent, and the filesystem — in particular any
partially written file at the service path's fixed filename — is left
exactly as the service call left it. -/
theorem c10_other_exception_escapes (env : Env) (platform : Platform)
    (format_choice : FormatChoice) (botToken : String) (fs0 : FS)
    (h : (download_via_service env.service platform format_choice botToken fs0).result
      = Except.error Exc.other) :
    (button_callback env platform format_choice botToken fs0).outcome = Outcome.crashed ∧
    (button_callback env platform format_choice botToken fs0).ytdlpCalls = 0 ∧
    (button_callback env platform format_choice botToken fs0).userMessages = [] ∧
    (button_callback env platform format_choice botToken fs0).fs
      = (download_via_service env.service platform format_choice botToken fs0).fs := by
  simp [button_callback, h]

/-- Witness for C10: a concrete request whose direct-media stream raises
after the response headers were received. -/
theorem c10_other_exception_escapes_witness :
    (download_via_service c10Env.service Platform.facebook FormatChoice.video "token0" []).result
      = Except.error Exc.other ∧
    ((button_callback c10Env Platform.facebook FormatChoice.video "token0" []).outcome
        = Outcome.crashed ∧
      (button_callback c10Env Platform.facebook FormatChoice.video "token0" []).ytdlpCalls = 0 ∧
      (button_callback c10Env Platform.facebook FormatChoice.video "token0" []).userMessages
        = [] ∧
      (button_callback c10Env Platform.facebook FormatChoice.video "token0" []).fs
        = (download_via_service c10Env.service Platform.facebook FormatChoice.video
            "token0" []).fs) :=
  ⟨rfl, c10_other_exception_escapes c10Env Platform.facebook FormatChoice.video "token0" [] rfl⟩

end Media

namespace Media

/-- C1 failing input, evaluated: a request whose direct-media stream
raises a requests error part-way through the streamed write.  The
exception is not a `DownloadError`, escapes `button_callback` uncaught,
and the partially written artifact `/tmp/download_123456.mp4` (8196
bytes) is still on disk after the request has ended, with no cleanup
having run on that path. -/
theorem c1_stream_failure_leaves_partial_file :
    (button_callback c1Env Platform.tiktok FormatChoice.video "ABCDEF123456" []).outcome
      = Outcome.crashed ∧
    fsHas (button_callback c1Env Platform.tiktok FormatChoice.video "ABCDEF123456" []).fs
      "/tmp/download_123456.mp4" = true ∧
    fsSize (button_callback c1Env Platform.tiktok FormatChoice.video "ABCDEF123456" []).fs
      "/tmp/download_123456.mp4" = 8196 ∧
    (button_callback c1Env Platform.tiktok FormatChoice.video "ABCDEF123456" []).userMessages
      = [] := by
  refine ⟨rfl, rfl, rfl, rfl⟩

/-- C6 failing input, evaluated: two distinct concurrent requests
(different users, different source URLs, different service pages) through
the same bot produce the very same artifact path, because the filename is
keyed on the last six characters of the shared BOT token, not on any
per-request token. -/
theorem c6_path_collision :
    (download_via_service c6EnvA Platform.tiktok FormatChoice.video "TOKEN123456" []).result
      = Except.ok ("/tmp/download_123456.mp4", FormatChoice.video) ∧
    (download_via_service c6EnvB Platform.youtube FormatChoice.video "TOKEN123456" []).result
      = Except.ok ("/tmp/download_123456.mp4", FormatChoice.video) ∧
    (∀ ext : String, ∀ tok : String, service_file_path tok ext
      = tmpDir ++ "download_" ++ lastN tok 6 ++ ext) := by
  exact ⟨rfl, rfl, fun _ _ => rfl⟩

/-- C7 failing input, evaluated: a failure that is not the recovered
`DownloadError` (a requests error inside the streamed write loop) ends
the request with ZERO terminal user-visible messages, contradicting
"every other failure kind surfaces as exactly one user-visible failure
message" and "each request produces exactly one terminal user-visible
message". -/
theorem c7_failure_with_no_terminal_message :
    (button_callback c7Env Platform.instagram FormatChoice.video "XYZ999" []).serviceCalls
      = 1 ∧
    (button_callback c7Env Platform.instagram FormatChoice.video "XYZ999" []).outcome
      = Outcome.crashed ∧
    (button_callback c7Env Platform.instagram FormatChoice.video "XYZ999" []).userMessages
      = [] := by
  refine ⟨rfl, rfl, rfl⟩

/-- C4 counterexample: the code's link scan differs from the claimed
selection rule on concrete pages.  With two qualifying links where only
the second carries a quality token, the code returns the FIRST (the loop
breaks at the first match) while the claimed rule returns the second;
and a link qualifying only through the "mp4" token is not selected by the
code at all, though the claimed rule selects it. -/
theorem c4_counterexample :
    find_download_url Platform.tiktok FormatChoice.video c4Links = some "/x/video_a" ∧
    claim_select_link c4Links = some "/y/video_hd" ∧
    some "/x/video_a" ≠ some "/y/video_hd" ∧
    find_download_url Platform.tiktok FormatChoice.video [⟨"/z/clip.mp4", ""⟩] = none ∧
    claim_select_link [⟨"/z/clip.mp4", ""⟩] = some "/z/clip.mp4" := by
  refine ⟨rfl, rfl, by decide, rfl, rfl⟩

/-- C4 amended: the scan selects the FIRST link satisfying the code's
per-platform predicate (youtube: destination contains "download" and the
link text contains the chosen format word; tiktok/facebook/instagram:
destination contains "download" or "video" — all case-insensitively);
"mp4" is not a media token, there is no quality-token preference, and the
loop breaks at the first match instead of overwriting. -/
theorem c4_first_match_selection (platform : Platform) (format_choice : FormatChoice)
    (links : List Link) :
    find_download_url platform format_choice links
      = (links.find? (linkMatches platform format_choice)).map Link.href := by
  induction links with
  | nil => rfl
  | cons l ls ih =>
    by_cases h : linkMatches platform format_choice l = true
    · simp [find_download_url, List.find?_cons, h]
    · simp [find_download_url, List.find?_cons, h, ih]

/-- C8 counterexample: with a PRESENT Content-Type header declaring
video and a requested format of audio, the code classifies the artifact
as audio (the requested format is consulted even when the header is
present), while the claimed rule would classify it as video. -/
theorem c8_counterexample :
    (service_media_kind (some "video/mp4") FormatChoice.audio).1 = FormatChoice.audio ∧
    claim_media_kind (some "video/mp4") FormatChoice.audio = FormatChoice.video ∧
    FormatChoice.audio ≠ FormatChoice.video := by
  refine ⟨rfl, rfl, by decide⟩

/-- C8 amended: in the service path the artifact is classified as audio
iff the declared Content-Type contains "audio" (case-sensitively) OR the
requested format is audio — the requested format is consulted regardless
of whether the header is present; the extension is fixed to `.mp3` for
audio and `.mp4` for video regardless of the actual container. -/
theorem c8_kind_rule (ct : Option String) (fm : FormatChoice) :
    ((service_media_kind ct fm).1 = FormatChoice.audio ↔
      (containsStr (ct.getD "") "audio" = true ∨ fm = FormatChoice.audio)) ∧
    ((service_media_kind ct fm).1 = FormatChoice.audio →
      (service_media_kind ct fm).2 = ".mp3") ∧
    ((service_media_kind ct fm).1 = FormatChoice.video →
      (service_media_kind ct fm).2 = ".mp4") := by
  unfold service_media_kind
  by_cases h : (containsStr (ct.getD "") "audio" || fm == FormatChoice.audio) = true
  · simp only [h, if_true]
    simp only [Bool.or_eq_true, beq_iff_eq] at h
    simp [h]
  · simp only [h, if_false]
    simp only [Bool.or_eq_true, beq_iff_eq] at h
    push_neg at h
    simp [h.1, h.2]

/-- Witness for C8's amended rule: a present audio Content-Type with a
video request yields an audio artifact with extension `.mp3`. -/
theorem c8_kind_rule_witness :
    (service_media_kind (some "audio/mpeg") FormatChoice.video).2 = ".mp3" :=
  (c8_kind_rule (some "audio/mpeg") FormatChoice.video).2.1 (by decide)

/-- C9 counterexample: a relative download link found on the service page
is handed verbatim (unresolved, scheme-less) to the direct-media fetch,
which therefore fails — the stream-fetch is NOT always issued to an
absolute URL resolved against the service's origin. -/
theorem c9_counterexample :
    (download_via_service c9Env Platform.tiktok FormatChoice.video "tokenA" []).directUrl
      = some "/getvid/video.mp4" ∧
    hasScheme "/getvid/video.mp4" = false ∧
    (download_via_service c9Env Platform.tiktok FormatChoice.video "tokenA" []).result
      = Except.error Exc.downloadError := by
  refine ⟨rfl, by decide, rfl⟩

/-- C9 amended: the selected link is used as-is as the direct-media URL;
when it is relative (scheme-less), no resolution against the service
origin happens and the direct-media request on it fails, surfacing as a
`DownloadError` from the service path. -/
theorem c9_relative_link_unresolved (env : ServiceEnv) (platform : Platform)
    (format_choice : FormatChoice) (botToken : String) (fs : FS) (links : List Link)
    (u : String)
    (hp : env.pageFetch = PageFetchResult.ok links)
    (hu : find_download_url platform format_choice links = some u)
    (hs : hasScheme u = false) :
    (download_via_service env platform format_choice botToken fs).directUrl = some u ∧
    (download_via_service env platform format_choice botToken fs).result
      = Except.error Exc.downloadError := by
  simp [download_via_service, hp, hu, requests_get, hs]

/-- Witness for C9's amended statement at a concrete page. -/
theorem c9_relative_link_unresolved_witness :
    (download_via_service c9EnvW Platform.facebook FormatChoice.video "tk" []).directUrl
      = some "/dl/video1" ∧
    (download_via_service c9EnvW Platform.facebook FormatChoice.video "tk" []).result
      = Except.error Exc.downloadError :=
  c9_relative_link_unresolved c9EnvW Platform.facebook FormatChoice.video "tk" []
    [⟨"/dl/video1", ""⟩] "/dl/video1" rfl rfl (by decide)

end Media
